import Mathlib

/-!
Verification of the GRVT in-memory venue client (CJ-GRID repository).

This file shallowly embeds the three source modules:
  * `grvt_rest.py`      — the in-memory order ledger (`GrvtRest`);
  * `grvt_websocket.py` — the simulated event channel (`GrvtWebSocket`);
  * `grvt.py`           — the adapter (`GrvtAdapter`) combining both.

Python `Decimal` values are modelled as `Int` (all arithmetic in the code is
exact), wall-clock timestamps as `Nat` milliseconds threaded in explicitly,
Python `dict` (insertion-ordered, first-key update-in-place) as an
association list with an update-or-append write, and Python truthiness of
optional strings via explicit helpers.  Asynchronous operations are
sequential in the source's single-threaded cooperative model, so each is a
pure state-passing function; the `asyncio.Lock` serialises them, which the
sequential embedding reflects.
-/

/-- Order side, from `models.OrderSide` as used by the adapter. -/
inductive OrderSide where
  | buy
  | sell
deriving DecidableEq, Repr

/-- Order type: the limit family accepted by `create_order`, plus `market`,
which `create_order` rejects. -/
inductive OrderType where
  | limit
  | postOnly
  | fok
  | ioc
  | market
deriving DecidableEq, Repr

/-- Order status values the GRVT code writes or reads. -/
inductive OrderStatus where
  | OPEN
  | CANCELED
  | FILLED
deriving DecidableEq, Repr

/-- The per-order dictionary stored in `GrvtRest._orders[order_id]`
(`grvt_rest.py` lines 84-96).  Every key the code ever writes is present. -/
structure OrderRec where
  id : String
  client_id : Option String
  symbol : String
  side : OrderSide
  type : OrderType
  price : Int
  amount : Int
  filled : Int
  status : OrderStatus
  timestamp : Nat
  updated : Nat
deriving DecidableEq, Repr

/-- The `OrderData` value built by `GrvtRest._to_order_data`
(`grvt_rest.py` lines 174-196); constant metadata fields are omitted. -/
structure OrderData where
  id : String
  client_id : Option String
  symbol : String
  side : OrderSide
  type : OrderType
  amount : Int
  price : Option Int
  filled : Int
  remaining : Int
  cost : Int
  average : Option Int
  status : OrderStatus
  timestamp : Nat
  updated : Option Nat
  fee : Option Int
deriving DecidableEq, Repr

/-- The `BalanceData` value built by `GrvtRest.get_balance`
(`grvt_rest.py` lines 161-172). -/
structure BalanceData where
  currency : String
  free : Int
  used : Int
  total : Int
  usd_value : Int
  timestamp : Nat
deriving DecidableEq, Repr

/-- Python dictionary lookup `d.get(k)` on an insertion-ordered dict
modelled as an association list. -/
def dictGet {α : Type} : List (String × α) → String → Option α
  | [], _ => none
  | p :: ps, k => if p.1 = k then some p.2 else dictGet ps k

/-- Python dictionary assignment `d[k] = v`: update in place the (unique)
existing entry for `k`, else append a new entry at the end. -/
def dictSet {α : Type} : List (String × α) → String → α → List (String × α)
  | [], k, v => [(k, v)]
  | p :: ps, k, v => if p.1 = k then (k, v) :: ps else p :: dictSet ps k v

/-- Python `a or b` on optional strings: `a` unless it is `None` or empty. -/
def pyOrStr (a b : Option String) : Option String :=
  match a with
  | some s => if s = "" then b else some s
  | none => b

/-- Python `a or d` on an optional number: `a` unless it is `None` or zero. -/
def pyOrInt (a : Option Int) (d : Int) : Int :=
  match a with
  | some v => if v = 0 then d else v
  | none => d

/-- The mutable state of `GrvtRest` (`grvt_rest.py` lines 50-52): the order
dictionary, the simulated balance, and the per-symbol position sizes. -/
structure GrvtRest where
  orders : List (String × OrderRec)
  balance : Int
  positionSize : List (String × Int)
deriving DecidableEq, Repr

/-- `GrvtRest._to_order_data` (`grvt_rest.py` lines 174-196).  Every record
reaching it was written by `place_limit_order`, so all dictionary keys are
present and the `.get` defaults are never taken; `cost` keeps the Python
`(order.get("price") or Decimal("0")) * order["amount"]` truthiness shape. -/
def GrvtRest.to_order_data (o : OrderRec) : OrderData :=
  { id := o.id
    client_id := o.client_id
    symbol := o.symbol
    side := o.side
    type := o.type
    amount := o.amount
    price := some o.price
    filled := o.filled
    remaining := o.amount - o.filled
    cost := pyOrInt (some o.price) 0 * o.amount
    average := some o.price
    status := o.status
    timestamp := o.timestamp
    updated := some o.updated
    fee := none }

/-- The synthesized order id `f"grvt_{int(time.time() * 1000)}"`
(`grvt_rest.py` line 82); `nowMs` is the wall-clock millisecond. -/
def synthOrderId (nowMs : Nat) : String :=
  "grvt_" ++ toString nowMs

/-- `GrvtRest.place_limit_order` (`grvt_rest.py` lines 71-103): choose the id
by Python truthiness (`client_order_id or f"grvt_{...}"`), write a fresh OPEN
record into `_orders` (overwriting any record already stored under that id),
and return its `OrderData`. -/
def GrvtRest.place_limit_order (st : GrvtRest) (symbol : String)
    (side : OrderSide) (price : Int) (size : Int)
    (client_order_id : Option String) (nowMs : Nat) : GrvtRest × OrderData :=
  let order_id :=
    match pyOrStr client_order_id (some (synthOrderId nowMs)) with
    | some s => s
    | none => synthOrderId nowMs
  let rec0 : OrderRec :=
    { id := order_id
      client_id := client_order_id
      symbol := symbol
      side := side
      type := OrderType.limit
      price := price
      amount := size
      filled := 0
      status := OrderStatus.OPEN
      timestamp := nowMs
      updated := nowMs }
  ({ st with orders := dictSet st.orders order_id rec0 },
    GrvtRest.to_order_data rec0)

/-- The in-place mutation `order["status"] = CANCELED; order["updated"] = now`
performed by `GrvtRest.cancel_order` (`grvt_rest.py` lines 119-120). -/
def cancelRec (nowMs : Nat) (o : OrderRec) : OrderRec :=
  { o with status := OrderStatus.CANCELED, updated := nowMs }

/-- `GrvtRest.cancel_order` (`grvt_rest.py` lines 105-125): resolve the target
id with Python truthiness (`order_id or client_order_id`, then
`if not target_id`), return `None` when the id is missing, otherwise mark the
record CANCELED, refresh `updated`, and return its `OrderData`. -/
def GrvtRest.cancel_order (st : GrvtRest) (_symbol : String)
    (order_id client_order_id : Option String) (nowMs : Nat) :
    GrvtRest × Option OrderData :=
  match pyOrStr order_id client_order_id with
  | none => (st, none)
  | some tid =>
    if tid = "" then (st, none)
    else
      match dictGet st.orders tid with
      | none => (st, none)
      | some o =>
        let o1 := cancelRec nowMs o
        ({ st with orders := dictSet st.orders tid o1 },
          some (GrvtRest.to_order_data o1))

/-- The symbol filter of `GrvtRest.get_open_orders`
(`grvt_rest.py` line 133): Python `not symbol or order["symbol"] == symbol`,
where both `None` and the empty string are falsy. -/
def symMatches (symbol : Option String) (osym : String) : Bool :=
  match symbol with
  | none => true
  | some s => if s = "" then true else decide (osym = s)

/-- The dictionary entries selected by the loop of `GrvtRest.get_open_orders`
(`grvt_rest.py` lines 132-134): status OPEN and passing the symbol filter,
in insertion order. -/
def openEntries (st : GrvtRest) (symbol : Option String) :
    List (String × OrderRec) :=
  st.orders.filter
    (fun p => decide (p.2.status = OrderStatus.OPEN) && symMatches symbol p.2.symbol)

/-- `GrvtRest.get_open_orders` (`grvt_rest.py` lines 127-135): the records
with status OPEN passing the symbol filter, in insertion order, converted by
`_to_order_data`. -/
def GrvtRest.get_open_orders (st : GrvtRest) (symbol : Option String) :
    List OrderData :=
  (openEntries st symbol).map (fun p => GrvtRest.to_order_data p.2)

/-- `GrvtRest.get_balance` (`grvt_rest.py` lines 161-172): a snapshot built
from the constant `_balance` field. -/
def GrvtRest.get_balance (st : GrvtRest) (nowMs : Nat) : BalanceData :=
  { currency := "USDC"
    free := st.balance
    used := 0
    total := st.balance
    usd_value := st.balance
    timestamp := nowMs }

/-- The initial `GrvtRest` state set up by `__init__`
(`grvt_rest.py` lines 50-52). -/
def GrvtRest.init : GrvtRest :=
  { orders := [], balance := 100000, positionSize := [] }

/-- A user-data subscriber (`grvt_websocket.py` line 19): an identifying tag
plus a handler that either returns or raises (`Except.error`). -/
structure Subscriber where
  sid : Nat
  handle : OrderData → Except String Unit

/-- The mutable state of `GrvtWebSocket` (`grvt_websocket.py` lines 16-22):
subscriber callbacks, the connected flag, the FIFO event queue, and whether a
live (not-done) consumer task exists. -/
structure GrvtWebSocket where
  callbacks : List Subscriber
  connected : Bool
  queue : List OrderData
  consumerRunning : Bool

/-- `GrvtWebSocket.connect` (`grvt_websocket.py` lines 24-33): set the
connected flag and start the consumer task when none is live. -/
def GrvtWebSocket.connect (ws : GrvtWebSocket) : GrvtWebSocket :=
  { ws with connected := true, consumerRunning := true }

/-- `GrvtWebSocket.subscribe_user_stream` (`grvt_websocket.py` lines 50-55):
append the callback to the subscriber list. -/
def GrvtWebSocket.subscribe_user_stream (ws : GrvtWebSocket) (s : Subscriber) :
    GrvtWebSocket :=
  { ws with callbacks := ws.callbacks ++ [s] }

/-- `GrvtWebSocket.send_user_event` (`grvt_websocket.py` lines 57-65): when
disconnected, first reconnect via `connect`, then push the event onto the
back of the queue. -/
def GrvtWebSocket.send_user_event (ws : GrvtWebSocket) (e : OrderData) :
    GrvtWebSocket :=
  let ws1 := if ws.connected then ws else ws.connect
  { ws1 with queue := ws1.queue ++ [e] }

/-- One fan-out pass of the consumer loop body (`grvt_websocket.py` lines
73-81): invoke every callback on the event in list order; a raising callback
is caught and its message logged, and the pass continues with the next
callback.  Returns the invocation trace (subscriber tag, event) and the log
of caught errors. -/
def dispatchEvent (subs : List Subscriber) (e : OrderData) :
    List (Nat × OrderData) × List String :=
  match subs with
  | [] => ([], [])
  | s :: ss =>
    let tail := dispatchEvent ss e
    match s.handle e with
    | Except.ok _ => ((s.sid, e) :: tail.1, tail.2)
    | Except.error msg => ((s.sid, e) :: tail.1, msg :: tail.2)

/-- The consumer loop `GrvtWebSocket._consume` (`grvt_websocket.py` lines
67-83) while the connection stays up: pop queued events in FIFO order and
fan each out to the subscribers; the resulting invocation trace. -/
def consumeQueue (subs : List Subscriber) : List OrderData → List (Nat × OrderData)
  | [] => []
  | e :: q => (dispatchEvent subs e).1 ++ consumeQueue subs q

/-- The mutable state of `GrvtAdapter` (`grvt.py` lines 40-51): the REST
ledger and the websocket channel (the adapter's own `_order_callbacks`
mirror `websocket._callbacks` and carry no further behavior). -/
structure GrvtAdapter where
  rest : GrvtRest
  ws : GrvtWebSocket

/-- The limit-family membership test of `GrvtAdapter.create_order`
(`grvt.py` line 135): `order_type in (LIMIT, POST_ONLY, FOK, IOC)`. -/
def isLimitFamily : OrderType → Bool
  | OrderType.limit => true
  | OrderType.postOnly => true
  | OrderType.fok => true
  | OrderType.ioc => true
  | OrderType.market => false

/-- `GrvtAdapter.create_order` (`grvt.py` lines 126-148): reject non-limit
types, place via the REST ledger with `price or Decimal("0")`, emit the
resulting order as one user event, and return it. -/
def GrvtAdapter.create_order (st : GrvtAdapter) (symbol : String)
    (side : OrderSide) (order_type : OrderType) (amount : Int)
    (price : Option Int) (client_order_id : Option String) (nowMs : Nat) :
    GrvtAdapter × Except String OrderData :=
  if isLimitFamily order_type then
    let pr := pyOrInt price 0
    let placed := st.rest.place_limit_order symbol side pr amount client_order_id nowMs
    ({ rest := placed.1, ws := st.ws.send_user_event placed.2 },
      Except.ok placed.2)
  else
    (st, Except.error "GRVT only supports limit-family order types")

/-- `GrvtAdapter.cancel_order` (`grvt.py` lines 150-155): cancel via the REST
ledger; on success emit one user event and return the order, otherwise raise
`ValueError` (order not found). -/
def GrvtAdapter.cancel_order (st : GrvtAdapter) (order_id : String)
    (symbol : String) (nowMs : Nat) : GrvtAdapter × Except String OrderData :=
  match st.rest.cancel_order symbol (some order_id) none nowMs with
  | (r1, some od) =>
    ({ rest := r1, ws := st.ws.send_user_event od }, Except.ok od)
  | (r1, none) =>
    ({ st with rest := r1 },
      Except.error ("GRVT order not found: " ++ order_id))

/-- The `for order in open_orders` loop of `GrvtAdapter.cancel_all_orders`
(`grvt.py` lines 159-165): cancel each listed order by id, emit one user
event per successful cancel, and collect the updated records in order. -/
def cancelLoop (st : GrvtAdapter) (todo : List OrderData) (nowMs : Nat) :
    GrvtAdapter × List OrderData :=
  match todo with
  | [] => (st, [])
  | o :: os =>
    match st.rest.cancel_order o.symbol (some o.id) none nowMs with
    | (r1, some updated) =>
      let st1 : GrvtAdapter := { rest := r1, ws := st.ws.send_user_event updated }
      let tail := cancelLoop st1 os nowMs
      (tail.1, updated :: tail.2)
    | (r1, none) =>
      cancelLoop { st with rest := r1 } os nowMs

/-- `GrvtAdapter.cancel_all_orders` (`grvt.py` lines 157-165): list the open
orders (optionally symbol-filtered) and run the cancel loop over them. -/
def GrvtAdapter.cancel_all_orders (st : GrvtAdapter) (symbol : Option String)
    (nowMs : Nat) : GrvtAdapter × List OrderData :=
  cancelLoop st (st.rest.get_open_orders symbol) nowMs

/-- One trading operation of the adapter surface, for stating properties of
operation sequences. -/
inductive TradeOp where
  | place (symbol : String) (side : OrderSide) (order_type : OrderType)
      (amount : Int) (price : Option Int) (client_order_id : Option String)
      (nowMs : Nat)
  | cancel (order_id symbol : String) (nowMs : Nat)
  | cancelAll (symbol : Option String) (nowMs : Nat)

/-- Apply one trading operation to the adapter state, discarding the value
returned to the caller. -/
def applyOp (st : GrvtAdapter) : TradeOp → GrvtAdapter
  | TradeOp.place symbol side ot amount price cid nowMs =>
    (st.create_order symbol side ot amount price cid nowMs).1
  | TradeOp.cancel oid symbol nowMs => (st.cancel_order oid symbol nowMs).1
  | TradeOp.cancelAll symbol nowMs => (st.cancel_all_orders symbol nowMs).1

/-- Apply a sequence of trading operations left to right. -/
def applyOps (st : GrvtAdapter) (ops : List TradeOp) : GrvtAdapter :=
  ops.foldl applyOp st

/-- Well-formedness of the order dictionary, true of every reachable
`GrvtRest` state: keys are distinct (it models a Python dict), every record's
`id` field equals its key (both are set from `order_id` on placement), and no
key is the empty string (a falsy `client_order_id` is replaced by the
synthesized id `grvt_<ms>`). -/
def WFOrders (d : List (String × OrderRec)) : Prop :=
  (d.map Prod.fst).Nodup ∧ ∀ p ∈ d, p.2.id = p.1 ∧ p.1 ≠ ""

/-- A subscriber whose handler always returns. -/
def subOk (n : Nat) : Subscriber :=
  { sid := n, handle := fun _ => Except.ok () }

/-- A subscriber whose handler always raises. -/
def subRaises (n : Nat) : Subscriber :=
  { sid := n, handle := fun _ => Except.error "subscriber failure" }

/-- A freshly connected websocket with no subscribers and an empty queue. -/
def wsIdle : GrvtWebSocket :=
  { callbacks := [], connected := true, queue := [], consumerRunning := true }

/-- A disconnected websocket holding one subscriber, as after `disconnect`. -/
def wsDown : GrvtWebSocket :=
  { callbacks := [subOk 1], connected := false, queue := [],
    consumerRunning := false }

/-- The adapter in its initial state: empty ledger, connected channel. -/
def adapter0 : GrvtAdapter :=
  { rest := GrvtRest.init, ws := wsIdle }

/-- Two `place` calls that both omit `client_order_id` and land in the same
wall-clock millisecond (1000 ms): the first call of the pair. -/
def placeSameMs1 : GrvtRest × OrderData :=
  GrvtRest.init.place_limit_order "BTC-PERP" OrderSide.buy 50000 1 none 1000

/-- The second same-millisecond `place` call, on the state left by the
first. -/
def placeSameMs2 : GrvtRest × OrderData :=
  placeSameMs1.1.place_limit_order "BTC-PERP" OrderSide.sell 51000 2 none 1000

/-- A `place` with client id "X", used to exhibit resurrection. -/
def placeX1 : GrvtRest × OrderData :=
  GrvtRest.init.place_limit_order "BTC-PERP" OrderSide.buy 100 1 (some "X") 1000

/-- Canceling order "X". -/
def cancelX : GrvtRest × Option OrderData :=
  placeX1.1.cancel_order "BTC-PERP" (some "X") none 2000

/-- A second `place` reusing client id "X" after the cancel: it overwrites
the canceled record. -/
def placeX2 : GrvtRest × OrderData :=
  cancelX.1.place_limit_order "BTC-PERP" OrderSide.buy 100 1 (some "X") 3000

/-- A reachable demonstration state: orders "a" (OPEN, BTC-PERP),
"b" (CANCELED, BTC-PERP) and "c" (OPEN, ETH-PERP). -/
def demoSt : GrvtAdapter :=
  applyOps adapter0
    [TradeOp.place "BTC-PERP" OrderSide.buy OrderType.limit 1 (some 10) (some "a") 1,
     TradeOp.place "BTC-PERP" OrderSide.sell OrderType.limit 2 (some 20) (some "b") 2,
     TradeOp.place "ETH-PERP" OrderSide.buy OrderType.limit 3 (some 30) (some "c") 3,
     TradeOp.cancel "b" "BTC-PERP" 4]

/-- A sample user-data event for exercising the channel. -/
def evDemo : OrderData :=
  GrvtRest.to_order_data
    { id := "e1", client_id := none, symbol := "BTC-PERP",
      side := OrderSide.buy, type := OrderType.limit, price := 5, amount := 2,
      filled := 0, status := OrderStatus.OPEN, timestamp := 0, updated := 0 }

/-- The ledger record of order "a" inside `demoSt` (still OPEN). -/
def aRec : OrderRec :=
  { id := "a", client_id := some "a", symbol := "BTC-PERP",
    side := OrderSide.buy, type := OrderType.limit, price := 10, amount := 1,
    filled := 0, status := OrderStatus.OPEN, timestamp := 1, updated := 1 }

/-- The ledger record of order "b" inside `demoSt` (already CANCELED). -/
def bRec : OrderRec :=
  { id := "b", client_id := some "b", symbol := "BTC-PERP",
    side := OrderSide.sell, type := OrderType.limit, price := 20, amount := 2,
    filled := 0, status := OrderStatus.CANCELED, timestamp := 2, updated := 4 }

/-- The record a `place` with client id "z" at time 9 adds to `demoSt`. -/
def zRec : OrderRec :=
  { id := "z", client_id := some "z", symbol := "BTC-PERP",
    side := OrderSide.buy, type := OrderType.limit, price := 10, amount := 1,
    filled := 0, status := OrderStatus.OPEN, timestamp := 9, updated := 9 }

instance (d : List (String × OrderRec)) : Decidable (WFOrders d) := by
  unfold WFOrders
  infer_instance

theorem dictGet_dictSet_self {α : Type} (d : List (String × α)) (k : String)
    (v : α) : dictGet (dictSet d k v) k = some v := by
  induction d with
  | nil => simp [dictGet, dictSet]
  | cons p ps ih =>
    by_cases h : p.1 = k
    · simp [dictSet, h, dictGet]
    · simp [dictSet, h, dictGet, ih]

theorem dictGet_dictSet_ne {α : Type} (d : List (String × α)) (k k' : String)
    (v : α) (h : k' ≠ k) : dictGet (dictSet d k v) k' = dictGet d k' := by
  induction d with
  | nil =>
    have hnk : ¬ k = k' := fun hh => h (Eq.symm hh)
    simp [dictGet, dictSet, hnk]
  | cons p ps ih =>
    by_cases hp : p.1 = k
    · have hnk : ¬ k = k' := fun hh => h (Eq.symm hh)
      have hnp : ¬ p.1 = k' := fun hh => h (Eq.trans (Eq.symm hh) hp)
      simp [dictSet, hp, dictGet, hnk, hnp]
    · simp [dictSet, hp, dictGet, ih]

theorem dictGet_of_mem {α : Type} (d : List (String × α)) (p : String × α)
    (hnd : (d.map Prod.fst).Nodup) (hp : p ∈ d) : dictGet d p.1 = some p.2 := by
  induction d with
  | nil => cases hp
  | cons q qs ih =>
    rcases List.mem_cons.mp hp with hq | hq
    · subst hq
      simp [dictGet]
    · have hkey : q.1 ≠ p.1 := by
        intro hh
        have : q.1 ∈ qs.map Prod.fst := hh ▸ List.mem_map_of_mem Prod.fst hq
        exact (List.nodup_cons.mp (by simpa using hnd)).1 this
      have hnd' : (qs.map Prod.fst).Nodup :=
        (List.nodup_cons.mp (by simpa using hnd)).2
      simp [dictGet, hkey, ih hnd' hq]

theorem send_user_event_queue (ws : GrvtWebSocket) (e : OrderData) :
    (ws.send_user_event e).queue = ws.queue ++ [e] := by
  unfold GrvtWebSocket.send_user_event GrvtWebSocket.connect
  by_cases h : ws.connected <;> simp [h]

theorem send_user_event_callbacks (ws : GrvtWebSocket) (e : OrderData) :
    (ws.send_user_event e).callbacks = ws.callbacks := by
  unfold GrvtWebSocket.send_user_event GrvtWebSocket.connect
  by_cases h : ws.connected <;> simp [h]

theorem dispatchEvent_trace (subs : List Subscriber) (e : OrderData) :
    (dispatchEvent subs e).1 = subs.map (fun s => (s.sid, e)) := by
  induction subs with
  | nil => rfl
  | cons s ss ih =>
    unfold dispatchEvent
    cases s.handle e <;> simp [ih]

theorem mem_consumeQueue (subs : List Subscriber) (q : List OrderData)
    (s : Subscriber) (e : OrderData) (hs : s ∈ subs) (he : e ∈ q) :
    (s.sid, e) ∈ consumeQueue subs q := by
  induction q with
  | nil => cases he
  | cons x xs ih =>
    rcases List.mem_cons.mp he with hx | hx
    · subst hx
      refine List.mem_append_left _ ?_
      rw [dispatchEvent_trace]
      exact List.mem_map_of_mem _ hs
    · exact List.mem_append_right _ (ih hx)

theorem rest_cancel_found (st : GrvtRest) (sym tid : String) (o : OrderRec)
    (hne : tid ≠ "") (hget : dictGet st.orders tid = some o) (nowMs : Nat) :
    st.cancel_order sym (some tid) none nowMs
      = ({ st with orders := dictSet st.orders tid (cancelRec nowMs o) },
         some (GrvtRest.to_order_data (cancelRec nowMs o))) := by
  unfold GrvtRest.cancel_order pyOrStr
  simp [hne, hget]

theorem rest_cancel_balance (st : GrvtRest) (sym : String)
    (oid cid : Option String) (nowMs : Nat) :
    (st.cancel_order sym oid cid nowMs).1.balance = st.balance := by
  unfold GrvtRest.cancel_order
  cases pyOrStr oid cid with
  | none => rfl
  | some tid =>
    by_cases h : tid = ""
    · simp [h]
    · simp only [h, if_false]
      cases hd : dictGet st.orders tid <;> simp [hd]

theorem rest_cancel_orders_of_none (st : GrvtRest) (sym : String)
    (oid cid : Option String) (nowMs : Nat)
    (h : (st.cancel_order sym oid cid nowMs).2 = none) :
    (st.cancel_order sym oid cid nowMs).1 = st := by
  unfold GrvtRest.cancel_order at h ⊢
  cases hp : pyOrStr oid cid with
  | none => rfl
  | some tid =>
    by_cases he : tid = ""
    · simp [hp, he]
    · simp only [hp, he, if_false] at h ⊢
      cases hd : dictGet st.orders tid with
      | none => simp [hd]
      | some o => simp [hd] at h

theorem cancelLoop_queue (nowMs : Nat) (todo : List OrderData) :
    ∀ st : GrvtAdapter,
      (cancelLoop st todo nowMs).1.ws.queue
        = st.ws.queue ++ (cancelLoop st todo nowMs).2 := by
  induction todo with
  | nil => intro st; simp [cancelLoop]
  | cons o os ih =>
    intro st
    unfold cancelLoop
    cases hc : st.rest.cancel_order o.symbol (some o.id) none nowMs with
    | mk r1 r2 =>
      cases r2 with
      | none => simpa using ih _
      | some updated =>
        simp only []
        rw [ih]
        simp [send_user_event_queue]

theorem cancelLoop_balance (nowMs : Nat) (todo : List OrderData) :
    ∀ st : GrvtAdapter,
      (cancelLoop st todo nowMs).1.rest.balance = st.rest.balance := by
  induction todo with
  | nil => intro st; simp [cancelLoop]
  | cons o os ih =>
    intro st
    unfold cancelLoop
    cases hc : st.rest.cancel_order o.symbol (some o.id) none nowMs with
    | mk r1 r2 =>
      have hb : r1.balance = st.rest.balance := by
        have := rest_cancel_balance st.rest o.symbol (some o.id) none nowMs
        rw [hc] at this
        exact this
      cases r2 with
      | none => exact (ih { st with rest := r1 }).trans hb
      | some updated =>
        exact (ih { rest := r1, ws := st.ws.send_user_event updated }).trans hb

theorem cancelLoop_spec (nowMs : Nat) (P : List (String × OrderRec)) :
    ∀ st : GrvtAdapter,
    (P.map Prod.fst).Nodup →
    (∀ p ∈ P, dictGet st.rest.orders p.1 = some p.2 ∧ p.2.id = p.1 ∧ p.1 ≠ "") →
    (cancelLoop st (P.map fun p => GrvtRest.to_order_data p.2) nowMs).2
        = P.map (fun p => GrvtRest.to_order_data (cancelRec nowMs p.2)) ∧
    ∀ k, dictGet
          (cancelLoop st (P.map fun p => GrvtRest.to_order_data p.2) nowMs).1.rest.orders k
        = if k ∈ P.map Prod.fst
          then (dictGet st.rest.orders k).map (cancelRec nowMs)
          else dictGet st.rest.orders k := by
  induction P with
  | nil =>
    intro st _ _
    exact ⟨rfl, fun k => by simp [cancelLoop]⟩
  | cons p ps ih =>
    intro st hnd hmem
    obtain ⟨hget, hid, hne⟩ := hmem p (List.mem_cons_self p ps)
    have hnd2 : (p.1 :: ps.map Prod.fst).Nodup := by
      rw [List.map_cons] at hnd
      exact hnd
    have hp1 : p.1 ∉ ps.map Prod.fst := (List.nodup_cons.mp hnd2).1
    have hnd' : (ps.map Prod.fst).Nodup := (List.nodup_cons.mp hnd2).2
    have hido : (GrvtRest.to_order_data p.2).id = p.1 := by
      simpa [GrvtRest.to_order_data] using hid
    have hstep : st.rest.cancel_order (GrvtRest.to_order_data p.2).symbol
        (some (GrvtRest.to_order_data p.2).id) none nowMs
        = ({ st.rest with orders := dictSet st.rest.orders p.1 (cancelRec nowMs p.2) },
           some (GrvtRest.to_order_data (cancelRec nowMs p.2))) := by
      rw [hido]
      exact rest_cancel_found st.rest _ p.1 p.2 hne hget nowMs
    have hred : cancelLoop st ((p :: ps).map fun q => GrvtRest.to_order_data q.2) nowMs
        = ((cancelLoop
              { rest := { st.rest with orders := dictSet st.rest.orders p.1 (cancelRec nowMs p.2) },
                ws := st.ws.send_user_event (GrvtRest.to_order_data (cancelRec nowMs p.2)) }
              (ps.map fun q => GrvtRest.to_order_data q.2) nowMs).1,
           GrvtRest.to_order_data (cancelRec nowMs p.2)
             :: (cancelLoop
              { rest := { st.rest with orders := dictSet st.rest.orders p.1 (cancelRec nowMs p.2) },
                ws := st.ws.send_user_event (GrvtRest.to_order_data (cancelRec nowMs p.2)) }
              (ps.map fun q => GrvtRest.to_order_data q.2) nowMs).2) := by
      rw [List.map_cons]
      simp only [cancelLoop, hstep]
    set st1 : GrvtAdapter :=
      { rest := { st.rest with orders := dictSet st.rest.orders p.1 (cancelRec nowMs p.2) },
        ws := st.ws.send_user_event (GrvtRest.to_order_data (cancelRec nowMs p.2)) } with hst1
    have hmem' : ∀ q ∈ ps,
        dictGet st1.rest.orders q.1 = some q.2 ∧ q.2.id = q.1 ∧ q.1 ≠ "" := by
      intro q hq
      obtain ⟨hgq, hiq, hnq⟩ := hmem q (List.mem_cons_of_mem _ hq)
      have hkne : q.1 ≠ p.1 := by
        intro hh
        exact hp1 (hh ▸ List.mem_map_of_mem Prod.fst hq)
      refine ⟨?_, hiq, hnq⟩
      show dictGet (dictSet st.rest.orders p.1 (cancelRec nowMs p.2)) q.1 = some q.2
      rw [dictGet_dictSet_ne _ _ _ _ hkne]
      exact hgq
    obtain ⟨ihres, ihdict⟩ := ih st1 hnd' hmem'
    constructor
    · rw [hred, List.map_cons]
      exact congrArg _ ihres
    · intro k
      rw [hred]
      have hd1 : dictGet st1.rest.orders k
          = dictGet (dictSet st.rest.orders p.1 (cancelRec nowMs p.2)) k := rfl
      by_cases hk : k ∈ ps.map Prod.fst
      · have hkne : k ≠ p.1 := by
          intro hh
          exact hp1 (hh ▸ hk)
        rw [ihdict k]
        simp only [hk, if_true, List.map_cons, List.mem_cons, hk, or_true, if_true,
          hd1]
        rw [dictGet_dictSet_ne _ _ _ _ hkne]
      · by_cases hkp : k = p.1
        · rw [ihdict k]
          subst hkp
          simp only [hk, if_false, hd1, List.map_cons, List.mem_cons, true_or, if_true]
          rw [dictGet_dictSet_self, hget]
          rfl
        · rw [ihdict k]
          have hknot : k ∉ (p :: ps).map Prod.fst := by
            simp [List.mem_cons, hkp, hk]
          simp only [hk, if_false, hd1, hknot, if_false]
          rw [dictGet_dictSet_ne _ _ _ _ hkp]

/-- C1: the claim says every successful `place`, even when `client_order_id`
is omitted and two calls fall in the same wall-clock millisecond, returns a
distinct order id and adds a new, distinct ledger record.  The code
synthesizes `grvt_<millisecond>` with no tie-breaker, so two
same-millisecond `place` calls return the SAME id and the second call
overwrites the first record: after the two placements of `placeSameMs1` and
`placeSameMs2` the ledger holds a single record, carrying the second call's
amount. -/
theorem same_millisecond_place_id_collision :
    placeSameMs1.2.id = placeSameMs2.2.id ∧
    placeSameMs2.1.orders.length = 1 ∧
    (dictGet placeSameMs2.1.orders (synthOrderId 1000)).map (fun r => r.amount)
      = some 2 := by
  decide

/-- C4: the claim says no operation ever writes a terminal order's status
back to OPEN.  The code's `place_limit_order` overwrites whatever record
shares its order id, so placing with client id "X", canceling it, then
placing with client id "X" again resurrects the CANCELED record to OPEN. -/
theorem canceled_order_resurrected_by_place :
    cancelX.2.isSome = true ∧
    (dictGet cancelX.1.orders "X").map (fun r => r.status)
      = some OrderStatus.CANCELED ∧
    (dictGet placeX2.1.orders "X").map (fun r => r.status)
      = some OrderStatus.OPEN := by
  decide

/-- C2: for every valid `place` call (limit-family type, price and amount
supplied), the returned order has status OPEN, filled 0, remaining equal to
the amount and cost equal to price times amount. -/
theorem place_returns_open_order (st : GrvtAdapter) (symbol : String)
    (side : OrderSide) (ot : OrderType) (amount p : Int) (cid : Option String)
    (nowMs : Nat) (h : isLimitFamily ot = true) :
    ∃ od, (st.create_order symbol side ot amount (some p) cid nowMs).2
        = Except.ok od
      ∧ od.status = OrderStatus.OPEN ∧ od.filled = 0 ∧ od.remaining = amount
      ∧ od.cost = p * amount := by
  refine ⟨(st.rest.place_limit_order symbol side (pyOrInt (some p) 0) amount
      cid nowMs).2, ?_, ?_, ?_, ?_, ?_⟩
  · simp [GrvtAdapter.create_order, h]
  · rfl
  · rfl
  · show amount - 0 = amount
    simp
  · show pyOrInt (some (pyOrInt (some p) 0)) 0 * amount = p * amount
    by_cases hp : p = 0 <;> simp [pyOrInt, hp]

/-- Concrete instance of C2: placing a limit order for 1 at price 50000 on
the fresh adapter yields an OPEN, unfilled order costing 50000. -/
theorem place_returns_open_order_witness :
    isLimitFamily OrderType.limit = true ∧
    ∃ od, (adapter0.create_order "BTC-PERP" OrderSide.buy OrderType.limit 1
        (some 50000) none 5).2 = Except.ok od
      ∧ od.status = OrderStatus.OPEN ∧ od.filled = 0 ∧ od.remaining = 1
      ∧ od.cost = 50000 * 1 :=
  ⟨rfl, place_returns_open_order adapter0 "BTC-PERP" OrderSide.buy
    OrderType.limit 1 50000 none 5 rfl⟩

/-- C10: a `create_order` call with a limit-family type and `price=None` is
not rejected: it returns an order whose price is 0 and whose cost is 0. -/
theorem none_price_accepted_as_zero (st : GrvtAdapter) (symbol : String)
    (side : OrderSide) (ot : OrderType) (amount : Int) (cid : Option String)
    (nowMs : Nat) (h : isLimitFamily ot = true) :
    ∃ od, (st.create_order symbol side ot amount none cid nowMs).2
        = Except.ok od
      ∧ od.price = some 0 ∧ od.cost = 0 := by
  refine ⟨(st.rest.place_limit_order symbol side (pyOrInt none 0) amount
      cid nowMs).2, ?_, ?_, ?_⟩
  · simp [GrvtAdapter.create_order, h]
  · rfl
  · show pyOrInt (some (pyOrInt none 0)) 0 * amount = 0
    simp [pyOrInt]

/-- Concrete instance of C10: a limit order with omitted price on the fresh
adapter comes back OPEN with price 0 and cost 0. -/
theorem none_price_accepted_as_zero_witness :
    isLimitFamily OrderType.limit = true ∧
    ∃ od, (adapter0.create_order "BTC-PERP" OrderSide.sell OrderType.limit 4
        none none 6).2 = Except.ok od
      ∧ od.price = some 0 ∧ od.cost = 0 :=
  ⟨rfl, none_price_accepted_as_zero adapter0 "BTC-PERP" OrderSide.sell
    OrderType.limit 4 none 6 rfl⟩

/-- C6: a single fan-out pass invokes every registered subscriber exactly
once, in registration order, whatever each handler returns or raises (a
raising subscriber does not stop delivery to the later ones), and the
consumer loop then moves on to the remaining queued events. -/
theorem subscribers_invoked_in_order (subs : List Subscriber) (e : OrderData)
    (q : List OrderData) :
    (dispatchEvent subs e).1 = subs.map (fun s => (s.sid, e)) ∧
    consumeQueue subs (e :: q) = (dispatchEvent subs e).1 ++ consumeQueue subs q :=
  ⟨dispatchEvent_trace subs e, rfl⟩

/-- C7: emitting an event while disconnected first reconnects (connected
flag set, consumer task live), then enqueues the event at the back of the
queue, and the consumer then delivers it to every current subscriber. -/
theorem emit_while_disconnected_delivers (ws : GrvtWebSocket) (e : OrderData)
    (h : ws.connected = false) :
    (ws.send_user_event e).connected = true ∧
    (ws.send_user_event e).consumerRunning = true ∧
    (ws.send_user_event e).queue = ws.queue ++ [e] ∧
    ∀ s ∈ (ws.send_user_event e).callbacks,
      (s.sid, e) ∈ consumeQueue (ws.send_user_event e).callbacks
        (ws.send_user_event e).queue := by
  have hws : ws.send_user_event e
      = { callbacks := ws.callbacks, connected := true,
          queue := ws.queue ++ [e], consumerRunning := true } := by
    unfold GrvtWebSocket.send_user_event GrvtWebSocket.connect
    simp [h]
  rw [hws]
  refine ⟨rfl, rfl, rfl, ?_⟩
  intro s hs
  exact mem_consumeQueue _ _ _ _ hs (by simp)

/-- Concrete instance of C7: emitting on the disconnected `wsDown` channel
reconnects it and the queued event reaches its subscriber. -/
theorem emit_while_disconnected_delivers_witness :
    wsDown.connected = false ∧
    ((wsDown.send_user_event evDemo).connected = true ∧
     (wsDown.send_user_event evDemo).consumerRunning = true ∧
     (wsDown.send_user_event evDemo).queue = wsDown.queue ++ [evDemo] ∧
     ∀ s ∈ (wsDown.send_user_event evDemo).callbacks,
       (s.sid, evDemo) ∈ consumeQueue (wsDown.send_user_event evDemo).callbacks
         (wsDown.send_user_event evDemo).queue) :=
  ⟨rfl, emit_while_disconnected_delivers wsDown evDemo rfl⟩

/-- C3: canceling an id absent from the ledger fails with the order-not-found
error and leaves the adapter state (hence the ledger) unchanged; canceling an
id whose order is already CANCELED succeeds, returns the order with status
CANCELED again, and the ledger entry stays CANCELED (idempotent). -/
theorem cancel_unknown_fails_canceled_idempotent (st : GrvtAdapter)
    (oid symbol : String) (nowMs : Nat) :
    (dictGet st.rest.orders oid = none →
       (st.cancel_order oid symbol nowMs).1 = st ∧
       (st.cancel_order oid symbol nowMs).2
         = Except.error ("GRVT order not found: " ++ oid)) ∧
    (∀ o, oid ≠ "" → dictGet st.rest.orders oid = some o →
       o.status = OrderStatus.CANCELED →
       (st.cancel_order oid symbol nowMs).2
         = Except.ok (GrvtRest.to_order_data (cancelRec nowMs o)) ∧
       (GrvtRest.to_order_data (cancelRec nowMs o)).status
         = OrderStatus.CANCELED ∧
       dictGet (st.cancel_order oid symbol nowMs).1.rest.orders oid
         = some (cancelRec nowMs o)) := by
  constructor
  · intro hnone
    have hrest : st.rest.cancel_order symbol (some oid) none nowMs
        = (st.rest, none) := by
      unfold GrvtRest.cancel_order pyOrStr
      by_cases he : oid = ""
      · simp [he]
      · simp [he, hnone]
    unfold GrvtAdapter.cancel_order
    rw [hrest]
    exact ⟨rfl, rfl⟩
  · intro o hne hsome _hcan
    have hrest := rest_cancel_found st.rest symbol oid o hne hsome nowMs
    unfold GrvtAdapter.cancel_order
    rw [hrest]
    refine ⟨rfl, rfl, ?_⟩
    show dictGet (dictSet st.rest.orders oid (cancelRec nowMs o)) oid = _
    exact dictGet_dictSet_self _ _ _

/-- Concrete instance of C3 on `demoSt`: canceling unknown id "zzz" errors
and changes nothing; canceling the already-CANCELED order "b" returns it as
CANCELED again. -/
theorem cancel_unknown_fails_canceled_idempotent_witness :
    ((demoSt.cancel_order "zzz" "BTC-PERP" 9).1 = demoSt ∧
     (demoSt.cancel_order "zzz" "BTC-PERP" 9).2
       = Except.error ("GRVT order not found: " ++ "zzz")) ∧
    ((demoSt.cancel_order "b" "BTC-PERP" 9).2
       = Except.ok (GrvtRest.to_order_data (cancelRec 9 bRec)) ∧
     (GrvtRest.to_order_data (cancelRec 9 bRec)).status
       = OrderStatus.CANCELED ∧
     dictGet (demoSt.cancel_order "b" "BTC-PERP" 9).1.rest.orders "b"
       = some (cancelRec 9 bRec)) :=
  ⟨(cancel_unknown_fails_canceled_idempotent demoSt "zzz" "BTC-PERP" 9).1
      (by decide),
   (cancel_unknown_fails_canceled_idempotent demoSt "b" "BTC-PERP" 9).2
      bRec (by decide) (by decide) (by decide)⟩

/-- C8: every successful `create_order` and every successful `cancel_order`
pushes exactly one user event carrying the resulting order record into the
event channel, and `cancel_all_orders` pushes exactly one event per canceled
order (its returned list). -/
theorem one_user_event_per_mutation (st : GrvtAdapter) :
    (∀ symbol side ot amount price cid nowMs od,
       (st.create_order symbol side ot amount price cid nowMs).2
         = Except.ok od →
       (st.create_order symbol side ot amount price cid nowMs).1.ws.queue
         = st.ws.queue ++ [od]) ∧
    (∀ oid symbol nowMs od,
       (st.cancel_order oid symbol nowMs).2 = Except.ok od →
       (st.cancel_order oid symbol nowMs).1.ws.queue = st.ws.queue ++ [od]) ∧
    (∀ symbol nowMs,
       (st.cancel_all_orders symbol nowMs).1.ws.queue
         = st.ws.queue ++ (st.cancel_all_orders symbol nowMs).2) := by
  refine ⟨?_, ?_, ?_⟩
  · intro symbol side ot amount price cid nowMs od hok
    unfold GrvtAdapter.create_order at hok ⊢
    by_cases h : isLimitFamily ot
    · simp only [h, if_true] at hok ⊢
      have hod : (st.rest.place_limit_order symbol side (pyOrInt price 0)
          amount cid nowMs).2 = od := by
        simpa using hok
      rw [← hod]
      exact send_user_event_queue st.ws _
    · simp [h] at hok
  · intro oid symbol nowMs od hok
    unfold GrvtAdapter.cancel_order at hok ⊢
    cases hc : st.rest.cancel_order symbol (some oid) none nowMs with
    | mk r1 r2 =>
      rw [hc] at hok
      cases r2 with
      | none => simp at hok
      | some od2 =>
        have hod : od2 = od := by simpa using hok
        rw [← hod]
        exact send_user_event_queue st.ws od2
  · intro symbol nowMs
    exact cancelLoop_queue nowMs _ st

/-- Concrete instance of C8 on `demoSt`: a successful place of "z", a
successful cancel of "a", and a `cancel_all` each append exactly their
resulting orders to the event queue. -/
theorem one_user_event_per_mutation_witness :
    (demoSt.create_order "BTC-PERP" OrderSide.buy OrderType.limit 1 (some 10)
        (some "z") 9).1.ws.queue
      = demoSt.ws.queue ++ [GrvtRest.to_order_data zRec] ∧
    (demoSt.cancel_order "a" "BTC-PERP" 9).1.ws.queue
      = demoSt.ws.queue ++ [GrvtRest.to_order_data (cancelRec 9 aRec)] ∧
    (demoSt.cancel_all_orders (some "BTC-PERP") 9).1.ws.queue
      = demoSt.ws.queue ++ (demoSt.cancel_all_orders (some "BTC-PERP") 9).2 :=
  ⟨(one_user_event_per_mutation demoSt).1 "BTC-PERP" OrderSide.buy
      OrderType.limit 1 (some 10) (some "z") 9 (GrvtRest.to_order_data zRec)
      rfl,
   (one_user_event_per_mutation demoSt).2.1 "a" "BTC-PERP" 9
      (GrvtRest.to_order_data (cancelRec 9 aRec)) rfl,
   (one_user_event_per_mutation demoSt).2.2 (some "BTC-PERP") 9⟩

/-- C9: across every sequence of place / cancel / cancel-all operations the
balance field never changes, so `get_balance` reports the same free, used
and total figures before and after. -/
theorem balance_invariant_under_trading (st : GrvtAdapter) (ops : List TradeOp)
    (nowMs : Nat) :
    (applyOps st ops).rest.balance = st.rest.balance ∧
    (applyOps st ops).rest.get_balance nowMs = st.rest.get_balance nowMs := by
  have hop : ∀ (s : GrvtAdapter) (op : TradeOp),
      (applyOp s op).rest.balance = s.rest.balance := by
    intro s op
    cases op with
    | place symbol side ot amount price cid now =>
      show (s.create_order symbol side ot amount price cid now).1.rest.balance
          = s.rest.balance
      unfold GrvtAdapter.create_order
      by_cases h : isLimitFamily ot <;>
        simp [h, GrvtRest.place_limit_order]
    | cancel oid symbol now =>
      show (s.cancel_order oid symbol now).1.rest.balance = s.rest.balance
      unfold GrvtAdapter.cancel_order
      cases hc : s.rest.cancel_order symbol (some oid) none now with
      | mk r1 r2 =>
        have hb : r1.balance = s.rest.balance := by
          have := rest_cancel_balance s.rest symbol (some oid) none now
          rw [hc] at this
          exact this
        cases r2 <;> simpa using hb
    | cancelAll symbol now =>
      exact cancelLoop_balance now (s.rest.get_open_orders symbol) s
  have hmain : ∀ (l : List TradeOp) (s : GrvtAdapter),
      (applyOps s l).rest.balance = s.rest.balance := by
    intro l
    induction l with
    | nil => intro s; rfl
    | cons op tl ih =>
      intro s
      exact (ih (applyOp s op)).trans (hop s op)
  refine ⟨hmain ops st, ?_⟩
  unfold GrvtRest.get_balance
  rw [hmain ops st]

/-- C5: `cancel_all_orders` returns exactly the canceled versions of the
entries that were OPEN and matched the symbol filter (in ledger order), all
with status CANCELED; pointwise, exactly those ledger keys are rewritten to
their canceled record; every order already in a terminal status keeps its
record unchanged and never appears in the result. -/
theorem cancel_all_affects_exactly_open_orders (st : GrvtAdapter)
    (symbol : Option String) (nowMs : Nat) (hwf : WFOrders st.rest.orders) :
    (st.cancel_all_orders symbol nowMs).2
        = (openEntries st.rest symbol).map
            (fun p => GrvtRest.to_order_data (cancelRec nowMs p.2)) ∧
    (∀ od ∈ (st.cancel_all_orders symbol nowMs).2,
        od.status = OrderStatus.CANCELED) ∧
    (∀ k, dictGet (st.cancel_all_orders symbol nowMs).1.rest.orders k
        = if k ∈ (openEntries st.rest symbol).map Prod.fst
          then (dictGet st.rest.orders k).map (cancelRec nowMs)
          else dictGet st.rest.orders k) ∧
    (∀ p ∈ st.rest.orders, p.2.status ≠ OrderStatus.OPEN →
        dictGet (st.cancel_all_orders symbol nowMs).1.rest.orders p.1
          = some p.2
        ∧ ∀ od ∈ (st.cancel_all_orders symbol nowMs).2, od.id ≠ p.1) := by
  obtain ⟨hnd, hids⟩ := hwf
  have hsub : (openEntries st.rest symbol).Sublist st.rest.orders :=
    List.filter_sublist _
  have hndo : ((openEntries st.rest symbol).map Prod.fst).Nodup :=
    List.Nodup.sublist (hsub.map Prod.fst) hnd
  have hmem : ∀ p ∈ openEntries st.rest symbol,
      dictGet st.rest.orders p.1 = some p.2 ∧ p.2.id = p.1 ∧ p.1 ≠ "" := by
    intro p hp
    have hpo : p ∈ st.rest.orders := hsub.mem hp
    exact ⟨dictGet_of_mem _ _ hnd hpo, (hids p hpo).1, (hids p hpo).2⟩
  obtain ⟨hres, hdict⟩ :=
    cancelLoop_spec nowMs (openEntries st.rest symbol) st hndo hmem
  have heq : st.cancel_all_orders symbol nowMs
      = cancelLoop st ((openEntries st.rest symbol).map
          fun p => GrvtRest.to_order_data p.2) nowMs := rfl
  refine ⟨?_, ?_, ?_, ?_⟩
  · rw [heq]
    exact hres
  · intro od hod
    rw [heq, hres] at hod
    obtain ⟨q, hq, rfl⟩ := List.mem_map.mp hod
    rfl
  · intro k
    rw [heq]
    exact hdict k
  · intro p hp hterm
    have hnotin : p.1 ∉ (openEntries st.rest symbol).map Prod.fst := by
      intro hcon
      obtain ⟨q, hq, hq1⟩ := List.mem_map.mp hcon
      have hqo : q ∈ st.rest.orders := hsub.mem hq
      have h1 := dictGet_of_mem _ q hnd hqo
      have h2 := dictGet_of_mem _ p hnd hp
      rw [hq1] at h1
      rw [h1] at h2
      have hq2 : q.2 = p.2 := Option.some.inj h2
      have hopen : q.2.status = OrderStatus.OPEN := by
        have hf := (List.mem_filter.mp hq).2
        simp only [Bool.and_eq_true, decide_eq_true_eq] at hf
        exact hf.1
      exact hterm (hq2 ▸ hopen)
    constructor
    · rw [heq, hdict p.1]
      simp only [hnotin, if_false]
      exact dictGet_of_mem _ p hnd hp
    · intro od hod
      rw [heq, hres] at hod
      obtain ⟨q, hq, rfl⟩ := List.mem_map.mp hod
      have hqid : (GrvtRest.to_order_data (cancelRec nowMs q.2)).id = q.1 := by
        have := (hmem q hq).2.1
        simpa [GrvtRest.to_order_data, cancelRec] using this
      rw [hqid]
      intro hh
      exact hnotin (hh ▸ List.mem_map_of_mem Prod.fst hq)

/-- Concrete instance of C5 on `demoSt` (orders "a" OPEN, "b" CANCELED,
"c" OPEN on another symbol): `cancel_all_orders (some "BTC-PERP")` cancels
exactly "a", leaves "b" and "c" records as they were, and excludes the
terminal "b" from the result. -/
theorem cancel_all_affects_exactly_open_orders_witness :
    WFOrders demoSt.rest.orders ∧
    ((demoSt.cancel_all_orders (some "BTC-PERP") 9).2
        = (openEntries demoSt.rest (some "BTC-PERP")).map
            (fun p => GrvtRest.to_order_data (cancelRec 9 p.2)) ∧
     (∀ od ∈ (demoSt.cancel_all_orders (some "BTC-PERP") 9).2,
        od.status = OrderStatus.CANCELED) ∧
     (∀ k, dictGet (demoSt.cancel_all_orders (some "BTC-PERP") 9).1.rest.orders k
        = if k ∈ (openEntries demoSt.rest (some "BTC-PERP")).map Prod.fst
          then (dictGet demoSt.rest.orders k).map (cancelRec 9)
          else dictGet demoSt.rest.orders k) ∧
     (∀ p ∈ demoSt.rest.orders, p.2.status ≠ OrderStatus.OPEN →
        dictGet (demoSt.cancel_all_orders (some "BTC-PERP") 9).1.rest.orders p.1
          = some p.2
        ∧ ∀ od ∈ (demoSt.cancel_all_orders (some "BTC-PERP") 9).2,
            od.id ≠ p.1)) :=
  ⟨by decide,
   cancel_all_affects_exactly_open_orders demoSt (some "BTC-PERP") 9 (by decide)⟩
